import Mathlib

/-!
# Verification of the InteractiveBook retrieval pipeline

Shallow embedding, in Lean 4, of the retrieval-pipeline core of the
InteractiveBook RAG backend:

* `src/services/EmbeddingService.py` — `generate_embedding`,
  `generate_embeddings_batch`;
* `src/services/VectorDBService.py` — `add_chunks` and `search_similar`;
* `src/services/RAGService.py` — `retrieve_context`, `format_sources`,
  `generate_answer`;
* `src/services/LLMService.py` — `build_rag_prompt`;
* `src/models/ChunkModel.py` — `save_chunks`;
* the chat endpoint of `src/routes/data_router.py` (its handling of an
  already-computed `generate_answer` result).

Python floats that are compared, clamped and subtracted here are embedded
as rationals (`ℚ`); the operations involved (`1 - d`, `min`, `max`,
comparisons) are exact on them.  Python exceptions become values of
`Except PyErr`; `ValueError` and `RuntimeError` are distinguished.
External collaborators — the sentence-transformer model, the ChromaDB
collection, the OpenAI client, the MongoDB collection — are passed in as
explicit oracle functions; a Python dictionary whose keys may be absent is
embedded as a structure with `Option` fields (`none` = key absent).
-/

namespace InteractiveBook

/-- An embedding vector (Python `List[float]`). -/
abbrev Vec := List ℚ

/-- A Python exception of the two kinds raised by the services under
verification. -/
inductive PyErr where
  | valueError (msg : String)
  | runtimeError (msg : String)
deriving DecidableEq, Repr

/-- A Python value handed to a `text` parameter: a string, or some
non-string object (only its truthiness is observable before the
`isinstance` check rejects it). -/
inductive PyText where
  | str (s : String)
  | nonStr
deriving DecidableEq, Repr

/-- Model of Python `str.strip()`: remove leading and trailing whitespace.
(Defined by structural recursion over the character list so that concrete
instances evaluate inside the kernel.) -/
def pyStrip (s : String) : String :=
  ⟨((s.data.dropWhile Char.isWhitespace).reverse.dropWhile Char.isWhitespace).reverse⟩

/-! ## EmbeddingService (`src/services/EmbeddingService.py`) -/

/-- The embedding-related configuration of `helpers/config.py`:
`EMBEDDING_DIMENSION` and `EMBEDDING_BATCH_SIZE`. -/
structure EmbedConfig where
  dimension : Nat
  batch_size : Nat
deriving DecidableEq, Repr

/-- Embedding of `EmbeddingService.generate_embedding` (lines 53-88).  The underlying
`self.model.encode` call is the oracle `enc`; it may itself fail
(`Except.error`), which the service wraps into a `RuntimeError`.

```text
if not text or not isinstance(text, str): raise ValueError(...)
if not text.strip(): return [0.0] * self.settings.EMBEDDING_DIMENSION
return self.model.encode(text, ...).tolist()
``` -/
def generate_embedding (cfg : EmbedConfig) (enc : String → Except String Vec)
    (text : PyText) : Except PyErr Vec :=
  match text with
  | .nonStr => .error (.valueError "Text must be a non-empty string")
  | .str s =>
    if s = "" then .error (.valueError "Text must be a non-empty string")
    else if pyStrip s = "" then .ok (List.replicate cfg.dimension 0)
    else
      match enc s with
      | .ok v => .ok v
      | .error e => .error (.runtimeError ("Failed to generate embedding: " ++ e))

/-- The validity test of the filtering loop of `generate_embeddings_batch`
(line 115): `text and isinstance(text, str) and text.strip()`, returning
the string when the entry is kept. -/
def validStr : PyText → Option String
  | .str s => if s ≠ "" ∧ pyStrip s ≠ "" then some s else none
  | .nonStr => none

/-- The batch slicing of the loop of `generate_embeddings_batch`
`for i in range(0, len(valid_texts), batch_size): batch = valid_texts[i:i + batch_size]`.
`batch_size = 0` never reaches this function (the Python `range` call would raise
first; see `generate_embeddings_batch`). -/
def sliceBatches (bs : Nat) (l : List String) : List (List String) :=
  if bs = 0 then []
  else
    match l with
    | [] => []
    | x :: xs => ((x :: xs).take bs) :: sliceBatches bs ((x :: xs).drop bs)
termination_by l.length
decreasing_by
  simp only [List.length_drop, List.length_cons]
  omega

/-- Embedding of `EmbeddingService.generate_embeddings_batch` (lines 90-158).  Each
batch is embedded by one `self.model.encode(batch, ...)` call, modelled as
mapping the per-text encoder `enc` over the batch; the per-batch results
are accumulated with `all_embeddings.extend(...)` (concatenation). -/
def generate_embeddings_batch (cfg : EmbedConfig) (enc : String → Vec)
    (texts : List PyText) : Except PyErr (List Vec) :=
  if texts = [] then .ok []
  else
    let valid_texts := texts.filterMap validStr
    if valid_texts = [] then .ok []
    else if cfg.batch_size = 0 then
      .error (.runtimeError "Failed to generate batch embeddings: range() arg 3 must not be zero")
    else
      .ok (((sliceBatches cfg.batch_size valid_texts).map (fun b => b.map enc)).flatten)

/-! ## VectorDBService (`src/services/VectorDBService.py`) -/

/-- A LangChain `Document`: `page_content` plus a metadata mapping whose
values the service stringifies before storing (`str(value)`); `none`
models an object with no `metadata` attribute. -/
structure Doc where
  page_content : String
  metadata : Option (List (String × String))
deriving DecidableEq, Repr

/-- One record prepared for `collection.add` by `add_chunks`: the id,
document text, metadata fields and embedding appended to the four parallel
lists `ids` / `documents` / `metadatas` / `embedding_vectors`. -/
structure Entry where
  chunk_id : String
  document : String
  chunk_order : Nat
  file_id : String
  project_id : String
  extra_metadata : List (String × String)
  embedding : Vec
deriving DecidableEq, Repr

/-- The body of the preparation loop of `add_chunks` (lines 136-171) for one
`(idx, (chunk, embedding))` drawn from `enumerate(zip(chunks, embeddings), start=1)`:
skip the entry when the embedding dimension mismatches, otherwise build
its record. -/
def prepareEntry (dim : Nat) (project_id file_id : String)
    (p : Nat × Doc × Vec) : Option Entry :=
  if p.2.2.length ≠ dim then none
  else
    some { chunk_id := "chunk_" ++ file_id ++ "_" ++ toString p.1
           document := p.2.1.page_content
           chunk_order := p.1
           file_id := file_id
           project_id := project_id
           extra_metadata := p.2.1.metadata.getD []
           embedding := p.2.2 }

/-- The full preparation loop of `add_chunks`: truncate both lists to the
shorter length (lines 118-125), then run `prepareEntry` over
`enumerate(zip(...), start=1)`. -/
def prepareEntries (dim : Nat) (project_id file_id : String)
    (chunks : List Doc) (embeddings : List Vec) : List Entry :=
  let min_length := min chunks.length embeddings.length
  let chunks' := chunks.take min_length
  let embeddings' := embeddings.take min_length
  ((chunks'.zip embeddings').enumFrom 1).filterMap
    (prepareEntry dim project_id file_id)

/-- Embedding of `VectorDBService.add_chunks` (lines 87-192).  `getColl` is the
`get_or_create_collection` call, `addOp` the `collection.add` call; both
may fail, which the service wraps into a `RuntimeError`. -/
def add_chunks (dim : Nat) (project_id : String) (chunks : List Doc)
    (embeddings : List Vec) (file_id : String)
    (getColl : Except String Unit) (addOp : List Entry → Except String Unit) :
    Except PyErr Nat :=
  if chunks = [] then .ok 0
  else if embeddings = [] then .ok 0
  else
    match getColl with
    | .error e => .error (.runtimeError ("Failed to add chunks to ChromaDB: " ++ e))
    | .ok _ =>
      let entries := prepareEntries dim project_id file_id chunks embeddings
      if entries = [] then .ok 0
      else
        match addOp entries with
        | .ok _ => .ok entries.length
        | .error e => .error (.runtimeError ("Failed to add chunks to ChromaDB: " ++ e))

/-- One formatted result of `search_similar` (lines 244-251): chunk id,
chunk text, raw distance (`none` when ChromaDB returned no distances) and
the metadata fields read later by `format_sources`. -/
structure SearchResult where
  chunk_id : String
  chunk_text : String
  distance : Option ℚ
  meta_file_id : Option String
  meta_chunk_order : Option Nat
deriving DecidableEq, Repr

/-- Embedding of `VectorDBService.search_similar` (lines 194-260).  `queryOp` folds the
collection lookup, the `collection.query` call and the result-formatting
loop into one oracle returning the formatted results; its failures are
wrapped into a `RuntimeError`.  Both validation checks happen before the
oracle is consulted. -/
def search_similar (dim : Nat) (query_embedding : Vec)
    (queryOp : Vec → Except String (List SearchResult)) :
    Except PyErr (List SearchResult) :=
  if query_embedding = [] then
    .error (.valueError "Query embedding cannot be empty")
  else if query_embedding.length ≠ dim then
    .error (.valueError "Query embedding dimension mismatch")
  else
    match queryOp query_embedding with
    | .ok rs => .ok rs
    | .error e => .error (.runtimeError ("Failed to search ChromaDB: " ++ e))

/-! ## RAGService (`src/services/RAGService.py`) -/

/-- Model of `str(e)` for the two exception kinds: their message. -/
def PyErr.msg : PyErr → String
  | .valueError m => m
  | .runtimeError m => m

/-- A retrieval result after `retrieve_context` attached its scores: the
`"distance"` key now holds the defaulted distance (`1.0` when ChromaDB
returned `None`) and the `"similarity"` key is always present. -/
structure ScoredResult where
  chunk_id : String
  chunk_text : String
  distance : ℚ
  similarity : ℚ
  meta_file_id : Option String
  meta_chunk_order : Option Nat
deriving DecidableEq, Repr

/-- The `None`-defaulting of lines 88-91 / 110-113: a missing distance is
replaced by `1.0`. -/
def defaultDistance (d : Option ℚ) : ℚ := d.getD 1

/-- The distance-to-similarity conversion of lines 96 / 116:
`max(0.0, min(1.0, 1.0 - distance))`. -/
def clampSimilarity (d : ℚ) : ℚ := max 0 (min 1 (1 - d))

/-- Attach `"similarity"` and the defaulted `"distance"` to one raw
search result (the shared body of both branches of the filter stage). -/
def scoreResult (r : SearchResult) : ScoredResult :=
  let d := defaultDistance r.distance
  { chunk_id := r.chunk_id
    chunk_text := r.chunk_text
    distance := d
    similarity := clampSimilarity d
    meta_file_id := r.meta_file_id
    meta_chunk_order := r.meta_chunk_order }

/-- The score-and-filter stage of `retrieve_context` (lines 85-120):
when `self.similarity_threshold > 0 and results`, keep exactly the scored
results with `similarity >= self.similarity_threshold`; otherwise attach
scores to every result and drop none. -/
def scoreAndFilter (threshold : ℚ) (results : List SearchResult) : List ScoredResult :=
  if 0 < threshold ∧ results ≠ [] then
    (results.map scoreResult).filter (fun r => threshold ≤ r.similarity)
  else
    results.map scoreResult

/-- Embedding of `RAGService.retrieve_context` (lines 41-127).  `embed` is the
`EmbeddingService.generate_embedding` call; `search` is the
`VectorDBService.search_similar` call with `project_id` and `file_id`
bound in its closure and the effective `top_k` passed explicitly
(`top_k if top_k is not None else self.context_chunks`).  Any exception
from either stage is caught and re-raised as
`RuntimeError(f"Failed to retrieve context: {str(e)}")`. -/
def retrieve_context (threshold : ℚ) (context_chunks : Nat)
    (embed : String → Except PyErr Vec)
    (search : Vec → Nat → Except PyErr (List SearchResult))
    (query : String) (top_k : Option Nat) : Except PyErr (List ScoredResult) :=
  if query = "" ∨ pyStrip query = "" then .ok []
  else
    match embed (pyStrip query) with
    | .error e => .error (.runtimeError ("Failed to retrieve context: " ++ e.msg))
    | .ok query_embedding =>
      let search_top_k := top_k.getD context_chunks
      match search query_embedding search_top_k with
      | .error e => .error (.runtimeError ("Failed to retrieve context: " ++ e.msg))
      | .ok results => .ok (scoreAndFilter threshold results)

/-- One source citation built by `format_sources` (lines 142-148): its
keys are exactly `source_index`, `file_id`, `chunk_order`, `chunk_text`
and `similarity`. -/
structure Source where
  source_index : Nat
  file_id : String
  chunk_order : Nat
  chunk_text : String
  similarity : ℚ
deriving DecidableEq, Repr

/-- The excerpt truncation of line 146: the first 200 characters plus an
ellipsis when the text is longer than 200 characters, the whole text
otherwise. -/
def truncateExcerpt (s : String) : String :=
  if s.length > 200 then s.take 200 ++ "..." else s

/-- Build the citation for one `(idx, chunk)` pair of
`enumerate(chunks, start=1)`.  A scored result always carries the
`"similarity"` key, so line 147 takes its first branch. -/
def formatSource (p : Nat × ScoredResult) : Source :=
  { source_index := p.1
    file_id := p.2.meta_file_id.getD "unknown"
    chunk_order := p.2.meta_chunk_order.getD 0
    chunk_text := truncateExcerpt p.2.chunk_text
    similarity := p.2.similarity }

/-- Embedding of `RAGService.format_sources` (lines 129-151) on the scored results
produced by `retrieve_context`. -/
def format_sources (chunks : List ScoredResult) : List Source :=
  (chunks.enumFrom 1).map formatSource

/-! ## LLMService (`src/services/LLMService.py`) -/

/-- Model of `source.get("distance")` inside `build_rag_prompt` (line 151): a
`Source` built by `format_sources` has no `distance` key (its keys are
listed at `Source`), so the lookup yields `None` for every citation the
RAG pipeline passes in. -/
def Source.get_distance (_ : Source) : Option ℚ := none

/-- Two-decimal fixed-point rendering of the exact rational argument, as
the similarity tag formats it: rounding to nearest. -/
def ratTo2dp (q : ℚ) : String :=
  let c : ℤ := round (q * 100)
  let sign := if c < 0 then "-" else ""
  let n := c.natAbs
  sign ++ toString (n / 100) ++ "." ++ (if n % 100 < 10 then "0" else "") ++ toString (n % 100)

/-- The prompt fragment appended for one
`(idx, (chunk_text, source))` of `enumerate(zip(context_chunks, sources), start=1)`
(lines 148-157): context tag, chunk text, source line, and — only when the
citation carries a `distance` value — a similarity tag. -/
def promptEntry (idx : Nat) (chunk_text : String) (source : Source) : String :=
  "\n[Context " ++ toString idx ++ "]\n" ++ chunk_text ++ "\n"
  ++ "Source: " ++ source.file_id ++ ", chunk " ++ toString source.chunk_order
  ++ (match source.get_distance with
      | some d => " (similarity: " ++ ratTo2dp (1 - d) ++ ")"
      | none => "")
  ++ "\n"

/-- Embedding of `LLMService.build_rag_prompt` (lines 125-166). -/
def build_rag_prompt (query : String) (context_chunks : List String)
    (sources : List Source) : String :=
  if context_chunks = [] then
    "Question: " ++ query ++ "\n\nI don\x27t have any relevant context to answer this question."
  else
    "You are a helpful assistant that answers questions based on the provided context.\n"
    ++ "\nContext:\n"
    ++ String.join (((context_chunks.zip sources).enumFrom 1).map
        (fun p => promptEntry p.1 p.2.1 p.2.2))
    ++ "\nQuestion: " ++ query ++ "\n\n"
    ++ "Answer the question using only the information from the context above. If the context doesn\x27t contain enough information, say so. Cite your sources when referencing specific information (e.g., \x27According to Context 1...\x27)."

/-! ## RAGService.generate_answer -/

/-- The result dictionary of `generate_answer`: each `Option` field is a
key that is present in some return branches and absent in others
(`none` = key absent; `answer` distinguishes an absent key from a key
holding `None` where needed via the branch shape). -/
structure RAGResult where
  answer : Option String
  sources : Option (List Source)
  search_results : Option (List Source)
  query : String
  chunks_retrieved : Nat
  error : Option String
  warning : Option String
  debug_info : Option String
deriving DecidableEq, Repr

/-- The fixed answer of the zero-result branch (line 195). -/
def noRelevantInfoMsg : String :=
  "I couldn\x27t find any relevant information in the documents to answer your question. Please try rephrasing your query or ensure documents have been processed."

/-- The `debug_info` of the zero-result branch (line 199). -/
def noChunksDebugMsg : String :=
  "No chunks retrieved. Check if documents were processed and embeddings were stored."

/-- The explanatory error of the LLM-unavailable branch (line 216). -/
def apiKeyErrorMsg : String :=
  "OpenAI API key is not configured. Please set OPENAI_API_KEY in your .env file to enable AI chat responses."

/-- The warning attached when LLM generation fails (line 242) and by the
chat endpoint in its degraded branch. -/
def llmFailedWarningMsg : String := "LLM generation failed, returning search results only"

/-- Embedding of `RAGService.generate_answer` (lines 153-257).  `llm_available` models
`self.llm_available and self.llm_service is not None`; `llm` is the
`generate_response` call.  The `ValueError` for a blank query is raised
before the `try` of the pipeline, so it propagates unchanged; any exception
escaping the pipeline body is re-raised as
`RuntimeError(f"RAG pipeline failed: {str(e)}")`, while an LLM failure is
caught inside and degrades to a search-results-only response. -/
def generate_answer (threshold : ℚ) (context_chunks : Nat) (llm_available : Bool)
    (embed : String → Except PyErr Vec)
    (search : Vec → Nat → Except PyErr (List SearchResult))
    (llm : String → Except PyErr String)
    (query : String) (top_k : Option Nat) : Except PyErr RAGResult :=
  if query = "" ∨ pyStrip query = "" then .error (.valueError "Query cannot be empty")
  else
    match retrieve_context threshold context_chunks embed search query top_k with
    | .error e => .error (.runtimeError ("RAG pipeline failed: " ++ e.msg))
    | .ok chunks =>
      if chunks = [] then
        .ok { answer := some noRelevantInfoMsg, sources := some [], search_results := none
              query := query, chunks_retrieved := 0, error := none, warning := none
              debug_info := some noChunksDebugMsg }
      else
        let sources := format_sources chunks
        let context_texts := chunks.map (fun c => c.chunk_text)
        if llm_available = false then
          .ok { answer := none, sources := none, search_results := some sources
                query := query, chunks_retrieved := chunks.length
                error := some apiKeyErrorMsg, warning := none, debug_info := none }
        else
          let prompt := build_rag_prompt query context_texts sources
          match llm prompt with
          | .error e =>
            .ok { answer := none, sources := some sources, search_results := some sources
                  query := query, chunks_retrieved := chunks.length
                  error := some ("LLM generation failed: " ++ e.msg)
                  warning := some llmFailedWarningMsg, debug_info := none }
          | .ok ans =>
            .ok { answer := some ans, sources := some sources, search_results := some sources
                  query := query, chunks_retrieved := chunks.length
                  error := none, warning := none, debug_info := none }

/-! ## ChunkModel (`src/models/ChunkModel.py`) -/

/-- A `DataChunk` document as built by `save_chunks` (the `_id` assigned
by MongoDB is omitted; `chunk_project_id` is the ObjectId of the project
rendered opaquely as a string). -/
structure DataChunk where
  chunk_text : String
  chunk_order : Nat
  chunk_project_id : String
  file_id : String
  metadata : Option (List (String × String))
  embedding : Option Vec
deriving DecidableEq, Repr

/-- The document built for one `(idx, chunk)` of
`enumerate(chunks, start=1)` (lines 30-38).  The embedding guard is
the Python guard `embeddings[idx - 1] if embeddings and idx <= len(embeddings) else None`:
an absent (`None`) or empty embeddings list is falsy, otherwise the
1-based `idx` must be within range. -/
def buildChunkDoc (project_id file_id : String) (embeddings : Option (List Vec))
    (p : Nat × Doc) : DataChunk :=
  { chunk_text := p.2.page_content
    chunk_order := p.1
    chunk_project_id := project_id
    file_id := file_id
    metadata := p.2.metadata
    embedding :=
      match embeddings with
      | some es => if es ≠ [] ∧ p.1 ≤ es.length then some (es.getD (p.1 - 1) []) else none
      | none => none }

/-- The `chunk_documents` list built by the loop of `save_chunks`. -/
def buildChunkDocs (project_id file_id : String) (embeddings : Option (List Vec))
    (chunks : List Doc) : List DataChunk :=
  (chunks.enumFrom 1).map (buildChunkDoc project_id file_id embeddings)

/-- Embedding of `ChunkModel.save_chunks` (lines 13-45).  `insertMany` is the
`self.collection.insert_many` call, returning `len(result.inserted_ids)`;
a storage failure propagates (no local handler). -/
def save_chunks (chunks : List Doc) (project_id : String) (file_id : String)
    (embeddings : Option (List Vec))
    (insertMany : List DataChunk → Except String Nat) : Except PyErr Nat :=
  if chunks = [] then .ok 0
  else
    let chunk_documents := buildChunkDocs project_id file_id embeddings chunks
    if chunk_documents = [] then .ok 0
    else
      match insertMany chunk_documents with
      | .ok n => .ok n
      | .error e => .error (.runtimeError e)

/-! ## Chat endpoint (`src/routes/data_router.py`, lines 433-556)

Only the part the claims are about is embedded: how the endpoint turns an
already-computed `generate_answer` outcome into an HTTP response
(lines 466-543).  The earlier request/project validation and the outer
catch-all are independent of that handling. -/

/-- The JSON response the chat endpoint builds: status code, the
`signal` field, and the optional content keys of the various branches
(`none` = key absent from the JSON body; `answer` is `some none` when the
key is present and holds JSON `null`). -/
structure ChatHttpResponse where
  status_code : Nat
  signal : String
  answer : Option (Option String) := none
  search_results : Option (List Source) := none
  sources : Option (List Source) := none
  query : Option String := none
  chunks_retrieved : Option Nat := none
  warning : Option String := none
  error : Option String := none
  details : Option String := none
deriving DecidableEq, Repr

/-- Model of the Python membership test `sub in s` on strings. -/
def pyInStr (sub s : String) : Bool := (s.splitOn sub).length ≥ 2

/-- The handling, by the chat endpoint, of the `generate_answer` outcome
(lines 466-543): a result carrying an `error` key degrades to an HTTP 200
search-results-only body; an error-free result is the HTTP 200 success
body; a `ValueError` maps to HTTP 400 and a `RuntimeError` to
500 / 429 / 500 according to its message. -/
def chat_handle_result (r : Except PyErr RAGResult) : ChatHttpResponse :=
  match r with
  | .ok result =>
    if result.error.isSome then
      { status_code := 200, signal := "process success"
        answer := some none
        search_results := some (result.search_results.getD [])
        sources := some (result.sources.getD [])
        query := some result.query
        chunks_retrieved := some result.chunks_retrieved
        warning := some llmFailedWarningMsg }
    else
      { status_code := 200, signal := "process success"
        answer := some result.answer
        sources := some (result.sources.getD [])
        query := some result.query
        chunks_retrieved := some result.chunks_retrieved }
  | .error (.valueError m) =>
      { status_code := 400, signal := "process failed", error := some m }
  | .error (.runtimeError m) =>
      if pyInStr "API key" m ∨ pyInStr "invalid" m.toLower then
        { status_code := 500, signal := "process failed"
          error := some "OpenAI API configuration error. Please check your API key."
          details := some m }
      else if pyInStr "rate limit" m.toLower then
        { status_code := 429, signal := "process failed"
          error := some "OpenAI API rate limit exceeded. Please try again later." }
      else
        { status_code := 500, signal := "process failed"
          error := some ("RAG service error: " ++ m) }

/-! ## Concrete instances used to exercise the theorems -/

/-- A raw search result at distance 1/4 (similarity 3/4). -/
def resA : SearchResult :=
  { chunk_id := "a", chunk_text := "alpha", distance := some (1/4)
    meta_file_id := some "f1", meta_chunk_order := some 1 }

/-- A raw search result at distance 9/10 (similarity 1/10). -/
def resB : SearchResult :=
  { chunk_id := "b", chunk_text := "beta", distance := some (9/10)
    meta_file_id := some "f1", meta_chunk_order := some 2 }

/-- A raw search result at distance 1/10 (similarity 9/10). -/
def resW : SearchResult :=
  { chunk_id := "c1", chunk_text := "hello world", distance := some (1/10)
    meta_file_id := some "f", meta_chunk_order := some 1 }

/-- An embedding oracle that fails if it is ever consulted. -/
def embedFailW : String → Except PyErr Vec :=
  fun _ => .error (.runtimeError "embedding provider invoked")

/-- A search oracle that fails if it is ever consulted. -/
def searchFailW : Vec → Nat → Except PyErr (List SearchResult) :=
  fun _ _ => .error (.runtimeError "vector index invoked")

/-- An embedding oracle returning a fixed vector. -/
def embedOkW : String → Except PyErr Vec := fun _ => .ok [1, 0, 0]

/-- A search oracle returning no results. -/
def searchEmptyW : Vec → Nat → Except PyErr (List SearchResult) := fun _ _ => .ok []

/-- A search oracle returning the single result `resW`. -/
def searchOneW : Vec → Nat → Except PyErr (List SearchResult) := fun _ _ => .ok [resW]

/-- A language-model oracle returning a fixed answer. -/
def llmW : String → Except PyErr String := fun _ => .ok "the answer"

/-- A vector-index query oracle returning no results. -/
def queryOpW : Vec → Except String (List SearchResult) := fun _ => .ok []

/-- A fallible per-text encoder for `generate_embedding`. -/
def encExcW : String → Except String Vec := fun s => .ok [(s.length : ℚ)]

/-- A per-text encoder for `generate_embeddings_batch`. -/
def encPureW : String → Vec := fun s => [(s.length : ℚ)]

/-- A batch input with two valid entries, a whitespace-only entry and a
non-string entry. -/
def textsW : List PyText := [.str "a", .str " ", .nonStr, .str "b"]

/-- Three parsed documents. -/
def docW1 : Doc := { page_content := "alpha", metadata := none }

/-- Second parsed document. -/
def docW2 : Doc := { page_content := "beta", metadata := none }

/-- Third parsed document. -/
def docW3 : Doc := { page_content := "gamma", metadata := none }

/-- A `collection.add` oracle that always succeeds. -/
def addOpW : List Entry → Except String Unit := fun _ => .ok ()

/-- An `insert_many` oracle that reports one inserted id per document. -/
def insertW : List DataChunk → Except String Nat := fun ds => .ok ds.length

/-- Two documents for the Chunk Store. -/
def docsW : List Doc :=
  [{ page_content := "one", metadata := none },
   { page_content := "two", metadata := some [("page", "2")] }]

/-- A placeholder document used as the default of `List.getD`. -/
def defaultChunkDoc : DataChunk :=
  { chunk_text := "", chunk_order := 0, chunk_project_id := "", file_id := ""
    metadata := none, embedding := none }

/-- A scored retrieval result for the prompt-construction theorems:
similarity 9/10 attached. -/
def chunkW : ScoredResult :=
  { chunk_id := "chunk_f_1", chunk_text := "hello", distance := 1/10
    similarity := 9/10, meta_file_id := some "f", meta_chunk_order := some 1 }

/-! ## Helper lemmas -/

theorem scoreAndFilter_nil (t : ℚ) : scoreAndFilter t [] = [] := by
  unfold scoreAndFilter
  split <;> rfl

theorem scoreAndFilter_zero (results : List SearchResult) :
    scoreAndFilter 0 results = results.map scoreResult := by
  unfold scoreAndFilter
  rw [if_neg]
  rintro ⟨h, -⟩
  exact lt_irrefl 0 h

theorem mem_scoreAndFilter (t : ℚ) (results : List SearchResult) :
    ∀ r ∈ scoreAndFilter t results, r ∈ results.map scoreResult := by
  intro r hr
  unfold scoreAndFilter at hr
  split at hr
  · exact List.mem_of_mem_filter hr
  · exact hr

theorem scoreResult_similarity (r : ScoredResult) (s : SearchResult)
    (h : r = scoreResult s) : r.similarity = max 0 (min 1 (1 - r.distance)) := by
  subst h
  rfl

/-! ## Claim theorems -/

/-- Claim C1.  In the score-and-filter stage of `retrieve_context`, every raw
distance `d` is converted to the similarity `clamp(1 - d, 0, 1)`; when the
configured threshold `t` is positive, the stage keeps exactly the scored
results with similarity at least `t` (every result with a smaller
similarity is dropped and every survivor satisfies the bound); when
`t = 0`, no result is dropped — every retrieved result is returned with
its similarity attached. -/
theorem C1_score_and_filter (t : ℚ) (results : List SearchResult) :
    (∀ r ∈ scoreAndFilter t results, r.similarity = max 0 (min 1 (1 - r.distance))) ∧
    (0 < t →
      (scoreAndFilter t results
          = (results.map scoreResult).filter (fun r => t ≤ r.similarity)) ∧
      (∀ r ∈ scoreAndFilter t results, t ≤ r.similarity) ∧
      (∀ r ∈ results, (scoreResult r).similarity < t →
          scoreResult r ∉ scoreAndFilter t results)) ∧
    (t = 0 →
      scoreAndFilter t results = results.map scoreResult ∧
      (scoreAndFilter t results).length = results.length) := by
  refine ⟨?_, ?_, ?_⟩
  · intro r hr
    obtain ⟨s, -, rfl⟩ := List.mem_map.mp (mem_scoreAndFilter t results r hr)
    rfl
  · intro ht
    have hfil : scoreAndFilter t results
        = (results.map scoreResult).filter (fun r => t ≤ r.similarity) := by
      unfold scoreAndFilter
      split
      · rfl
      · rename_i h
        have hres : results = [] := by
          by_contra hne
          exact h ⟨ht, hne⟩
        subst hres
        rfl
    refine ⟨hfil, ?_, ?_⟩
    · intro r hr
      rw [hfil] at hr
      simpa using (List.mem_filter.mp hr).2
    · intro r _ hlt
      rw [hfil]
      intro hmem2
      have h2 := (List.mem_filter.mp hmem2).2
      simp only [decide_eq_true_eq] at h2
      exact absurd h2 (not_le.mpr hlt)
  · intro ht
    subst ht
    rw [scoreAndFilter_zero]
    exact ⟨rfl, by simp⟩

/-- Witness for C1 at threshold 1/2 on two concrete results: the stage is
the similarity filter, which keeps exactly the result at distance 1/4
(similarity 3/4) and drops the one at distance 9/10 (similarity 1/10). -/
theorem C1_witness :
    (0 : ℚ) < 1/2 ∧
    scoreAndFilter (1/2) [resA, resB]
      = ([resA, resB].map scoreResult).filter (fun r => (1:ℚ)/2 ≤ r.similarity) ∧
    scoreAndFilter (1/2) [resA, resB] = [scoreResult resA] := by
  have h := ((C1_score_and_filter (1/2) [resA, resB]).2.1 (by norm_num)).1
  refine ⟨by norm_num, h, ?_⟩
  rw [h]
  have hA : (scoreResult resA).similarity = 3/4 := by
    show clampSimilarity (defaultDistance (some (1/4))) = 3/4
    rw [defaultDistance, Option.getD_some, clampSimilarity]
    rw [show (1:ℚ) - 1/4 = 3/4 by norm_num]
    rw [min_eq_right (by norm_num), max_eq_right (by norm_num)]
  have hB : (scoreResult resB).similarity = 1/10 := by
    show clampSimilarity (defaultDistance (some (9/10))) = 1/10
    rw [defaultDistance, Option.getD_some, clampSimilarity]
    rw [show (1:ℚ) - 9/10 = 1/10 by norm_num]
    rw [min_eq_right (by norm_num), max_eq_right (by norm_num)]
  rw [List.map_cons, List.map_cons, List.map_nil]
  rw [List.filter_cons, List.filter_cons]
  rw [hA, hB]
  norm_num

/-- Claim C10.  For every query that is empty or whitespace-only,
`retrieve_context` returns the empty list without raising and without
consulting the embedding provider or the vector index (the result is
the same for every choice of the two oracles). -/
theorem C10_blank_query (threshold : ℚ) (context_chunks : Nat)
    (embed : String → Except PyErr Vec)
    (search : Vec → Nat → Except PyErr (List SearchResult))
    (query : String) (top_k : Option Nat)
    (h : pyStrip query = "") :
    retrieve_context threshold context_chunks embed search query top_k = .ok [] := by
  unfold retrieve_context
  rw [if_pos (Or.inr h)]

/-- Witness for C10: a whitespace-only query returns `ok []` even under
oracles that fail if consulted. -/
theorem C10_witness :
    pyStrip "   " = "" ∧
    retrieve_context (1/2) 5 embedFailW searchFailW "   " none = .ok [] :=
  ⟨by decide, C10_blank_query (1/2) 5 embedFailW searchFailW "   " none (by decide)⟩

/-- Claim C8.  `search_similar` raises the invalid-query `ValueError`
exactly for an empty or dimension-mismatched query vector, and does so
before the vector index is consulted (the outcome is one fixed error,
independent of the query oracle); a query vector of the configured
dimension (which is positive) never produces that validation error. -/
theorem C8_search_validation (dim : Nat) (q : Vec) :
    ((q = [] ∨ q.length ≠ dim) →
        ∃ msg, ∀ queryOp, search_similar dim q queryOp = .error (.valueError msg)) ∧
    (q.length = dim → 0 < dim →
        ∀ queryOp msg, search_similar dim q queryOp ≠ .error (.valueError msg)) := by
  constructor
  · intro h
    by_cases hq : q = []
    · exact ⟨"Query embedding cannot be empty", fun queryOp => by
        unfold search_similar
        rw [if_pos hq]⟩
    · have hlen : q.length ≠ dim := h.resolve_left hq
      exact ⟨"Query embedding dimension mismatch", fun queryOp => by
        unfold search_similar
        rw [if_neg hq, if_pos hlen]⟩
  · intro hlen hdim queryOp msg
    have hq : q ≠ [] := by
      intro hnil
      rw [hnil] at hlen
      simp only [List.length_nil] at hlen
      omega
    unfold search_similar
    rw [if_neg hq, if_neg (fun hcon => hcon hlen)]
    cases queryOp q with
    | ok rs => simp
    | error e => simp

/-- Witness for C8: a 3-component query against dimension 3 passes
validation — the result is never the invalid-query error. -/
theorem C8_witness :
    ([(1:ℚ), 0, 0].length = 3) ∧ (0 < 3) ∧
    search_similar 3 [(1:ℚ), 0, 0] queryOpW
      ≠ .error (.valueError "Query embedding cannot be empty") :=
  ⟨rfl, by norm_num,
    (C8_search_validation 3 [(1:ℚ), 0, 0]).2 rfl (by norm_num) queryOpW
      "Query embedding cannot be empty"⟩

/-- Claim C7.  `generate_embedding` fails with the invalid-input
`ValueError` exactly when the text is the empty string or not a string;
a non-empty whitespace-only string instead yields, without failing, the
all-zero vector of the configured dimension (that vector has length equal
to the dimension and every component zero). -/
theorem C7_embed_one (cfg : EmbedConfig) (enc : String → Except String Vec)
    (text : PyText) :
    ((∃ msg, generate_embedding cfg enc text = .error (.valueError msg)) ↔
        (text = .str "" ∨ text = .nonStr)) ∧
    (∀ s, text = .str s → s ≠ "" → pyStrip s = "" →
        generate_embedding cfg enc text = .ok (List.replicate cfg.dimension 0)) ∧
    (List.replicate cfg.dimension (0:ℚ)).length = cfg.dimension ∧
    (∀ x ∈ List.replicate cfg.dimension (0:ℚ), x = 0) := by
  refine ⟨⟨?_, ?_⟩, ?_, List.length_replicate .., fun x hx => List.eq_of_mem_replicate hx⟩
  · rintro ⟨msg, hmsg⟩
    cases text with
    | nonStr => exact Or.inr rfl
    | str s =>
      left
      by_cases hs : s = ""
      · rw [hs]
      · exfalso
        by_cases ht : pyStrip s = ""
        · simp [generate_embedding, hs, ht] at hmsg
        · cases he : enc s with
          | ok v => simp [generate_embedding, hs, ht, he] at hmsg
          | error e => simp [generate_embedding, hs, ht, he] at hmsg
  · rintro (h | h) <;> subst h
    · exact ⟨"Text must be a non-empty string", by simp [generate_embedding]⟩
    · exact ⟨"Text must be a non-empty string", rfl⟩
  · intro s hst hs ht
    subst hst
    simp only [generate_embedding]
    rw [if_neg hs, if_pos ht]

/-- Witness for C7: the one-space string is non-empty, whitespace-only,
and embeds to the all-zero vector of dimension 4. -/
theorem C7_witness :
    (" " : String) ≠ "" ∧ pyStrip " " = "" ∧
    generate_embedding { dimension := 4, batch_size := 32 } encExcW (.str " ")
      = .ok (List.replicate 4 0) :=
  ⟨by decide, by decide,
    (C7_embed_one { dimension := 4, batch_size := 32 } encExcW (.str " ")).2.1
      " " rfl (by decide) (by decide)⟩

theorem sliceBatches_nil (bs : Nat) : sliceBatches bs [] = [] := by
  rw [sliceBatches.eq_def]
  split <;> rfl

theorem sliceBatches_cons (bs : Nat) (hbs : bs ≠ 0) (x : String) (xs : List String) :
    sliceBatches bs (x :: xs)
      = ((x :: xs).take bs) :: sliceBatches bs ((x :: xs).drop bs) := by
  rw [sliceBatches.eq_def]
  rw [if_neg hbs]

theorem sliceBatches_flatten (bs : Nat) (hbs : bs ≠ 0) (l : List String) :
    (sliceBatches bs l).flatten = l := by
  have H : ∀ n (l : List String), l.length ≤ n → (sliceBatches bs l).flatten = l := by
    intro n
    induction n with
    | zero =>
      intro l hl
      have h0 : l = [] := List.eq_nil_of_length_eq_zero (Nat.le_zero.mp hl)
      subst h0
      rw [sliceBatches_nil]
      rfl
    | succ n ih =>
      intro l hl
      cases l with
      | nil =>
        rw [sliceBatches_nil]
        rfl
      | cons x xs =>
        have hlen : ((x :: xs).drop bs).length ≤ n := by
          rw [List.length_drop]
          simp only [List.length_cons] at hl ⊢
          omega
        rw [sliceBatches_cons bs hbs, List.flatten_cons, ih _ hlen,
          List.take_append_drop]
  exact H l.length l le_rfl

theorem sliceBatches_bounds (bs : Nat) (hbs : bs ≠ 0) (l : List String) :
    ∀ b ∈ sliceBatches bs l, b ≠ [] ∧ b.length ≤ bs := by
  have H : ∀ n (l : List String), l.length ≤ n →
      ∀ b ∈ sliceBatches bs l, b ≠ [] ∧ b.length ≤ bs := by
    intro n
    induction n with
    | zero =>
      intro l hl b hb
      have h0 : l = [] := List.eq_nil_of_length_eq_zero (Nat.le_zero.mp hl)
      subst h0
      rw [sliceBatches_nil] at hb
      cases hb
    | succ n ih =>
      intro l hl b hb
      cases l with
      | nil =>
        rw [sliceBatches_nil] at hb
        cases hb
      | cons x xs =>
        rw [sliceBatches_cons bs hbs] at hb
        rcases List.mem_cons.mp hb with rfl | hb2
        · constructor
          · cases bs with
            | zero => exact absurd rfl hbs
            | succ m => simp [List.take_succ_cons]
          · exact List.length_take_le ..
        · have hlen : ((x :: xs).drop bs).length ≤ n := by
            rw [List.length_drop]
            simp only [List.length_cons] at hl ⊢
            omega
          exact ih _ hlen b hb2
  exact H l.length l le_rfl

theorem sliceBatches_full (bs : Nat) (hbs : bs ≠ 0) (l : List String) :
    ∀ i b, i + 1 < (sliceBatches bs l).length →
      (sliceBatches bs l)[i]? = some b → b.length = bs := by
  have H : ∀ n (l : List String), l.length ≤ n →
      ∀ i b, i + 1 < (sliceBatches bs l).length →
        (sliceBatches bs l)[i]? = some b → b.length = bs := by
    intro n
    induction n with
    | zero =>
      intro l hl i b hi _
      have h0 : l = [] := List.eq_nil_of_length_eq_zero (Nat.le_zero.mp hl)
      subst h0
      rw [sliceBatches_nil] at hi
      simp at hi
    | succ n ih =>
      intro l hl i b hi hb
      cases l with
      | nil =>
        rw [sliceBatches_nil] at hi
        simp at hi
      | cons x xs =>
        rw [sliceBatches_cons bs hbs] at hi hb
        cases i with
        | zero =>
          rw [List.getElem?_cons_zero] at hb
          have hbeq : (x :: xs).take bs = b := by
            exact Option.some.inj hb
          by_cases hd : (x :: xs).drop bs = []
          · rw [hd, sliceBatches_nil] at hi
            simp at hi
          · have hle : bs < (x :: xs).length := by
              have := List.drop_eq_nil_iff.not.mp hd
              omega
            rw [← hbeq, List.length_take]
            omega
        | succ i =>
          rw [List.getElem?_cons_succ] at hb
          simp only [List.length_cons] at hi
          have hlen : ((x :: xs).drop bs).length ≤ n := by
            rw [List.length_drop]
            simp only [List.length_cons] at hl ⊢
            omega
          exact ih _ hlen i b (by omega) hb
  exact H l.length l le_rfl

theorem length_filterMap_lt {α β : Type} (f : α → Option β) (l : List α)
    (a : α) (ha : a ∈ l) (hfa : f a = none) :
    (l.filterMap f).length < l.length := by
  induction l with
  | nil => cases ha
  | cons x xs ih =>
    rw [List.filterMap_cons]
    cases hfx : f x with
    | none =>
      calc (xs.filterMap f).length ≤ xs.length := List.length_filterMap_le f xs
        _ < (x :: xs).length := by simp
    | some b =>
      have hmem : a ∈ xs := by
        rcases List.mem_cons.mp ha with h | h
        · rw [← h, hfa] at hfx
          exact Option.noConfusion hfx
        · exact h
      simp only [List.length_cons]
      exact Nat.succ_lt_succ (ih hmem)

/-- Claim C6.  `generate_embeddings_batch` skips exactly the empty,
non-string and whitespace-only entries without failing; it embeds the
valid subset in batches of the configured batch size (each batch is
non-empty, at most the batch size, and every batch but possibly the last
is exactly the batch size); the concatenated per-batch outputs are the
encoder mapped over the valid entries in their original relative order;
an empty or all-invalid input yields the empty sequence; and when at
least one entry is skipped and at least one is valid, the output is
strictly shorter than the input. -/
theorem C6_embed_many (cfg : EmbedConfig) (enc : String → Vec) (texts : List PyText)
    (hbs : cfg.batch_size ≠ 0) :
    generate_embeddings_batch cfg enc texts
      = .ok ((texts.filterMap validStr).map enc) ∧
    (∀ b ∈ sliceBatches cfg.batch_size (texts.filterMap validStr),
        b ≠ [] ∧ b.length ≤ cfg.batch_size) ∧
    (∀ i b, i + 1 < (sliceBatches cfg.batch_size (texts.filterMap validStr)).length →
        (sliceBatches cfg.batch_size (texts.filterMap validStr))[i]? = some b →
        b.length = cfg.batch_size) ∧
    (texts.filterMap validStr = [] →
        generate_embeddings_batch cfg enc texts = .ok []) ∧
    ((∃ t ∈ texts, validStr t = none) → (∃ t ∈ texts, (validStr t).isSome) →
        ((texts.filterMap validStr).map enc).length < texts.length) := by
  have hmain : generate_embeddings_batch cfg enc texts
      = .ok ((texts.filterMap validStr).map enc) := by
    by_cases h1 : texts = []
    · subst h1
      rfl
    · rw [generate_embeddings_batch, if_neg h1]
      show (if texts.filterMap validStr = [] then Except.ok []
            else if cfg.batch_size = 0 then
              Except.error (PyErr.runtimeError
                "Failed to generate batch embeddings: range() arg 3 must not be zero")
            else Except.ok (((sliceBatches cfg.batch_size
              (texts.filterMap validStr)).map (fun b => b.map enc)).flatten)) = _
      by_cases h2 : texts.filterMap validStr = []
      · rw [if_pos h2, h2]
        rfl
      · rw [if_neg h2, if_neg hbs, ← List.map_flatten,
          sliceBatches_flatten cfg.batch_size hbs]
  refine ⟨hmain, sliceBatches_bounds cfg.batch_size hbs _,
    sliceBatches_full cfg.batch_size hbs _, ?_, ?_⟩
  · intro hv
    rw [hmain, hv]
    rfl
  · rintro ⟨t, ht, hnone⟩ _
    calc ((texts.filterMap validStr).map enc).length
        = (texts.filterMap validStr).length := List.length_map ..
      _ < texts.length := length_filterMap_lt validStr texts t ht hnone

/-- Witness for C6: batch size 2, four entries of which a whitespace-only
and a non-string entry are skipped; the output is the encoder applied to
the two valid entries in order, strictly shorter than the input. -/
theorem C6_witness :
    ({ dimension := 3, batch_size := 2 } : EmbedConfig).batch_size ≠ 0 ∧
    generate_embeddings_batch { dimension := 3, batch_size := 2 } encPureW textsW
      = .ok [encPureW "a", encPureW "b"] ∧
    ((textsW.filterMap validStr).map encPureW).length < textsW.length := by
  have h := C6_embed_many { dimension := 3, batch_size := 2 } encPureW textsW
    (by decide)
  refine ⟨by decide, ?_, ?_⟩
  · rw [h.1]
    rfl
  · exact h.2.2.2.2 ⟨.nonStr, by decide, rfl⟩ ⟨.str "a", by decide, by decide⟩

/-- Claim C9.  `save_chunks` returns 0 for an empty chunk list without
contacting storage (the result is the same for every `insert_many`
oracle); for a non-empty list it assigns the 1-based gapless ordinals
`1..N` in input order, and attaches to the chunk at ordinal `i` the
embedding at position `i - 1` exactly when an embeddings list is provided
and the ordinal is within its length, leaving the embedding absent
otherwise. -/
theorem C9_save_chunks (chunks : List Doc) (pid fid : String)
    (embeddings : Option (List Vec))
    (insertMany : List DataChunk → Except String Nat) :
    (save_chunks [] pid fid embeddings insertMany = .ok 0) ∧
    ((buildChunkDocs pid fid embeddings chunks).map (fun d => d.chunk_order)
        = List.range' 1 chunks.length) ∧
    (∀ i, i < chunks.length →
      ((buildChunkDocs pid fid embeddings chunks).getD i defaultChunkDoc).chunk_order
          = i + 1 ∧
      ((buildChunkDocs pid fid embeddings chunks).getD i defaultChunkDoc).embedding
          = match embeddings with
            | some es => if i < es.length then some (es.getD i []) else none
            | none => none) := by
  refine ⟨rfl, ?_, ?_⟩
  · unfold buildChunkDocs
    rw [List.map_map]
    have hcongr : ∀ p ∈ chunks.enumFrom 1,
        ((fun d => d.chunk_order) ∘ buildChunkDoc pid fid embeddings) p
          = Prod.fst p := fun p _ => rfl
    rw [List.map_congr_left hcongr, List.enumFrom_map_fst]
  · intro i hi
    have hlook : (buildChunkDocs pid fid embeddings chunks)[i]?
        = some (buildChunkDoc pid fid embeddings (1 + i, chunks[i])) := by
      unfold buildChunkDocs
      rw [List.getElem?_map, List.getElem?_enumFrom, List.getElem?_eq_getElem hi]
      rfl
    rw [List.getD_eq_getElem?_getD, hlook, Option.getD_some]
    constructor
    · show (1 + i) = i + 1
      omega
    · cases embeddings with
      | none => rfl
      | some es =>
        show (if es ≠ [] ∧ 1 + i ≤ es.length
            then some (es.getD (1 + i - 1) []) else none)
          = if i < es.length then some (es.getD i []) else none
        by_cases hlt : i < es.length
        · rw [if_pos ?_, if_pos hlt]
          · have hidx : 1 + i - 1 = i := by omega
            rw [hidx]
          · refine ⟨?_, by omega⟩
            intro hnil
            rw [hnil] at hlt
            simp at hlt
        · rw [if_neg ?_, if_neg hlt]
          rintro ⟨-, hle⟩
          exact hlt (by omega)

/-- Witness for C9: the empty save returns 0; for two documents with a
one-vector embeddings list, the second document has ordinal 2 and no
embedding attached. -/
theorem C9_witness :
    (save_chunks [] "p" "f" (some [[(1:ℚ)]]) insertW = .ok 0) ∧
    (1 < docsW.length) ∧
    (((buildChunkDocs "p" "f" (some [[(1:ℚ)]]) docsW).getD 1 defaultChunkDoc).chunk_order
        = 2) ∧
    (((buildChunkDocs "p" "f" (some [[(1:ℚ)]]) docsW).getD 1 defaultChunkDoc).embedding
        = none) := by
  have h := C9_save_chunks docsW "p" "f" (some [[(1:ℚ)]]) insertW
  refine ⟨h.1, by decide, ?_, ?_⟩
  · exact (h.2.2 1 (by decide)).1
  · rw [(h.2.2 1 (by decide)).2]
    rfl

theorem zip_take_min {α β : Type} (l₁ : List α) (l₂ : List β) :
    (l₁.take (min l₁.length l₂.length)).zip (l₂.take (min l₁.length l₂.length))
      = l₁.zip l₂ := by
  induction l₁ generalizing l₂ with
  | nil => simp
  | cons x xs ih =>
    cases l₂ with
    | nil => simp
    | cons y ys =>
      simp only [List.length_cons]
      have hmin : min (xs.length + 1) (ys.length + 1) = min xs.length ys.length + 1 := by
        omega
      rw [hmin, List.take_succ_cons, List.take_succ_cons, List.zip_cons_cons,
        List.zip_cons_cons, ih]

theorem length_filterMap_prepareEntry (dim : Nat) (pid fid : String)
    (l : List (Nat × Doc × Vec)) :
    (l.filterMap (prepareEntry dim pid fid)).length
      = (l.filter (fun p => p.2.2.length = dim)).length := by
  induction l with
  | nil => rfl
  | cons p ps ih =>
    rw [List.filterMap_cons, List.filter_cons]
    by_cases hp : p.2.2.length = dim
    · rw [show prepareEntry dim pid fid p
          = some { chunk_id := "chunk_" ++ fid ++ "_" ++ toString p.1
                   document := p.2.1.page_content
                   chunk_order := p.1
                   file_id := fid
                   project_id := pid
                   extra_metadata := p.2.1.metadata.getD []
                   embedding := p.2.2 } by
        unfold prepareEntry
        rw [if_neg (not_not_intro hp)]]
      simp [hp, ih]
    · rw [show prepareEntry dim pid fid p = none by
        unfold prepareEntry
        rw [if_pos hp]]
      simp only [hp, decide_eq_true_eq, if_neg hp]
      exact ih

/-- Claim C4.  `add_chunks` never fails on a chunk/vector count mismatch:
both lists are truncated to the shorter length (the enumerated zip), each
entry whose vector length differs from the configured dimension is then
excluded individually, and — when the collection is available and the
store call succeeds — the returned count is exactly the number of entries
surviving both the truncation and the dimension check (the entries
actually handed to the store). -/
theorem C4_upsert (dim : Nat) (pid fid : String) (chunks : List Doc)
    (embeddings : List Vec) (getColl : Except String Unit)
    (addOp : List Entry → Except String Unit)
    (hcoll : getColl = .ok ()) (hadd : ∀ es, addOp es = .ok ()) :
    add_chunks dim pid chunks embeddings fid getColl addOp
      = .ok (prepareEntries dim pid fid chunks embeddings).length ∧
    prepareEntries dim pid fid chunks embeddings
      = ((chunks.zip embeddings).enumFrom 1).filterMap (prepareEntry dim pid fid) ∧
    (prepareEntries dim pid fid chunks embeddings).length
      = (((chunks.zip embeddings).enumFrom 1).filter
          (fun p => p.2.2.length = dim)).length := by
  have h2 : prepareEntries dim pid fid chunks embeddings
      = ((chunks.zip embeddings).enumFrom 1).filterMap (prepareEntry dim pid fid) := by
    unfold prepareEntries
    show (((chunks.take (min chunks.length embeddings.length)).zip
        (embeddings.take (min chunks.length embeddings.length))).enumFrom 1).filterMap
        (prepareEntry dim pid fid) = _
    rw [zip_take_min]
  have h3 : (prepareEntries dim pid fid chunks embeddings).length
      = (((chunks.zip embeddings).enumFrom 1).filter
          (fun p => p.2.2.length = dim)).length := by
    rw [h2]
    exact length_filterMap_prepareEntry dim pid fid _
  refine ⟨?_, h2, h3⟩
  by_cases hc : chunks = []
  · subst hc
    rw [show prepareEntries dim pid fid [] embeddings
        = ([] : List Entry) by simp [prepareEntries]]
    rfl
  · by_cases he : embeddings = []
    · subst he
      rw [show prepareEntries dim pid fid chunks [] = ([] : List Entry) by
        rw [h2]
        simp]
      rw [add_chunks.eq_def, if_neg hc, if_pos rfl]
      rfl
    · rw [add_chunks.eq_def, if_neg hc, if_neg he, hcoll]
      show (if prepareEntries dim pid fid chunks embeddings = [] then Except.ok 0
            else match addOp (prepareEntries dim pid fid chunks embeddings) with
              | .ok _ => Except.ok (prepareEntries dim pid fid chunks embeddings).length
              | .error e => Except.error (PyErr.runtimeError
                  ("Failed to add chunks to ChromaDB: " ++ e)))
          = Except.ok (prepareEntries dim pid fid chunks embeddings).length
      by_cases hent : prepareEntries dim pid fid chunks embeddings = []
      · rw [if_pos hent, hent]
        rfl
      · rw [if_neg hent, hadd]

/-- Witness for C4: three chunks against two vectors (truncated to two
pairs), of which the second vector has the wrong dimension — exactly one
entry is stored and the call reports 1 rather than failing. -/
theorem C4_witness :
    add_chunks 2 "p" [docW1, docW2, docW3] [[1, 2], [3]] "f" (.ok ()) addOpW
      = .ok 1 := by
  have h := (C4_upsert 2 "p" "f" [docW1, docW2, docW3] [[1, 2], [3]]
    (.ok ()) addOpW rfl (fun _ => rfl)).1
  rw [h]
  rfl

theorem not_blank_of_strip_ne (query : String) (hq : pyStrip query ≠ "") :
    ¬(query = "" ∨ pyStrip query = "") := by
  rintro (h | h)
  · subst h
    exact hq rfl
  · exact hq h

/-- Counterexample to claim C2 as stated: the one-space query is a
non-empty string, and retrieval (were it consulted) yields zero chunks,
yet `generate_answer` raises the blank-query `ValueError` instead of
returning the terminal no-relevant-information answer. -/
theorem C2_counterexample :
    (" " : String) ≠ "" ∧
    retrieve_context (1/2) 5 embedOkW searchEmptyW " " none = .ok [] ∧
    generate_answer (1/2) 5 true embedOkW searchEmptyW llmW " " none
      = .error (.valueError "Query cannot be empty") := by
  refine ⟨by decide, ?_, ?_⟩
  · unfold retrieve_context
    rw [if_pos (Or.inr (by decide))]
  · rw [generate_answer.eq_def, if_pos (Or.inr (by decide))]

/-- Claim C2 (amended).  For every query that is non-empty after trimming
whitespace and for which retrieval yields zero chunks after filtering,
`generate_answer` returns — without raising — the fixed
no-relevant-information answer with an empty sources list, zero chunks
retrieved and no error field. -/
theorem C2_no_chunks (threshold : ℚ) (context_chunks : Nat) (llm_available : Bool)
    (embed : String → Except PyErr Vec)
    (search : Vec → Nat → Except PyErr (List SearchResult))
    (llm : String → Except PyErr String)
    (query : String) (top_k : Option Nat)
    (hq : pyStrip query ≠ "")
    (hret : retrieve_context threshold context_chunks embed search query top_k
      = .ok []) :
    generate_answer threshold context_chunks llm_available embed search llm query top_k
      = .ok { answer := some noRelevantInfoMsg, sources := some []
              search_results := none, query := query, chunks_retrieved := 0
              error := none, warning := none
              debug_info := some noChunksDebugMsg } := by
  rw [generate_answer.eq_def, if_neg (not_blank_of_strip_ne query hq), hret]
  rfl

/-- Witness for the amended C2: a real query against an index with no
matching entries produces exactly the terminal no-relevant-information
result. -/
theorem C2_witness :
    pyStrip "hi" ≠ "" ∧
    retrieve_context (1/2) 5 embedOkW searchEmptyW "hi" none = .ok [] ∧
    generate_answer (1/2) 5 true embedOkW searchEmptyW llmW "hi" none
      = .ok { answer := some noRelevantInfoMsg, sources := some []
              search_results := none, query := "hi", chunks_retrieved := 0
              error := none, warning := none
              debug_info := some noChunksDebugMsg } := by
  have hret : retrieve_context (1/2) 5 embedOkW searchEmptyW "hi" none = .ok [] := by
    unfold retrieve_context
    rw [if_neg (by decide)]
    show Except.ok (scoreAndFilter (1/2) []) = Except.ok []
    rw [scoreAndFilter_nil]
  exact ⟨by decide, hret,
    C2_no_chunks (1/2) 5 true embedOkW searchEmptyW llmW "hi" none (by decide) hret⟩

/-- Claim C3.  When retrieval yields at least one chunk and the language
model is unavailable, `generate_answer` returns — without raising — a
result with a null answer, `search_results` populated with the formatted
sources, `chunks_retrieved` equal to the number of retrieved chunks and
an explanatory error string; and the chat endpoint surfaces that result
as an HTTP 200 success body. -/
theorem C3_llm_unavailable (threshold : ℚ) (context_chunks : Nat)
    (embed : String → Except PyErr Vec)
    (search : Vec → Nat → Except PyErr (List SearchResult))
    (llm : String → Except PyErr String)
    (query : String) (top_k : Option Nat) (chunks : List ScoredResult)
    (hq : pyStrip query ≠ "")
    (hret : retrieve_context threshold context_chunks embed search query top_k
      = .ok chunks)
    (hne : chunks ≠ []) :
    generate_answer threshold context_chunks false embed search llm query top_k
      = .ok { answer := none, sources := none
              search_results := some (format_sources chunks)
              query := query, chunks_retrieved := chunks.length
              error := some apiKeyErrorMsg, warning := none, debug_info := none } ∧
    chat_handle_result
        (generate_answer threshold context_chunks false embed search llm query top_k)
      = { status_code := 200, signal := "process success"
          answer := some none
          search_results := some (format_sources chunks)
          sources := some []
          query := some query
          chunks_retrieved := some chunks.length
          warning := some llmFailedWarningMsg
          error := none, details := none } := by
  have hmain : generate_answer threshold context_chunks false embed search llm
      query top_k
      = .ok { answer := none, sources := none
              search_results := some (format_sources chunks)
              query := query, chunks_retrieved := chunks.length
              error := some apiKeyErrorMsg, warning := none, debug_info := none } := by
    cases chunks with
    | nil => exact absurd rfl hne
    | cons c cs =>
      rw [generate_answer.eq_def, if_neg (not_blank_of_strip_ne query hq), hret]
      rfl
  refine ⟨hmain, ?_⟩
  rw [hmain]
  rfl

/-- Witness for C3: one retrieved chunk with the language model
unconfigured — the degraded result and its HTTP 200 rendering. -/
theorem C3_witness :
    pyStrip "hi" ≠ "" ∧
    ([scoreResult resW] : List ScoredResult) ≠ [] ∧
    generate_answer 0 5 false embedOkW searchOneW llmW "hi" none
      = .ok { answer := none, sources := none
              search_results := some (format_sources [scoreResult resW])
              query := "hi", chunks_retrieved := 1
              error := some apiKeyErrorMsg, warning := none, debug_info := none } ∧
    (chat_handle_result
        (generate_answer 0 5 false embedOkW searchOneW llmW "hi" none)).status_code
      = 200 := by
  have hret : retrieve_context 0 5 embedOkW searchOneW "hi" none
      = .ok [scoreResult resW] := by
    unfold retrieve_context
    rw [if_neg (by decide)]
    show Except.ok (scoreAndFilter 0 [resW]) = Except.ok [scoreResult resW]
    rw [scoreAndFilter_zero]
    rfl
  have h := C3_llm_unavailable 0 5 embedOkW searchOneW llmW "hi" none
    [scoreResult resW] (by decide) hret (by simp)
  exact ⟨by decide, by simp, h.1, by rw [h.2]⟩

/-- Claim C5 (the code at the failing input).  For a retrieved chunk that
carries similarity 9/10, the citation built by `format_sources` carries
that similarity, yet the prompt built by `build_rag_prompt` contains the
context tag, the chunk text, the source line, the query and the
instruction — but no similarity tag at all: the prompt code reads the
absent `distance` key of the citation, so the tag branch is never taken.
The full prompt is the literal below, in which no similarity appears. -/
theorem C5_similarity_tag_missing :
    chunkW.similarity = 9/10 ∧
    (format_sources [chunkW]).map (fun s => s.similarity) = [9/10] ∧
    (format_sources [chunkW]).map Source.get_distance = [none] ∧
    build_rag_prompt "q" ["hello"] (format_sources [chunkW])
      = "You are a helpful assistant that answers questions based on the provided context.\n\nContext:\n\n[Context 1]\nhello\nSource: f, chunk 1\n\nQuestion: q\n\nAnswer the question using only the information from the context above. If the context doesn\x27t contain enough information, say so. Cite your sources when referencing specific information (e.g., \x27According to Context 1...\x27)." := by
  refine ⟨rfl, rfl, rfl, ?_⟩
  rfl

end InteractiveBook
